import Mathlib

/-!
Verification of the solsms SMS-provider adapter (providers/solsms/solsms.go)
against its natural-language specification.

The Go source is shallowly embedded: the configuration struct, the
constructor `New`, the address validator, the request builder inside `Push`
and the response classification are translated into executable Lean
definitions.  Network effects are modelled by passing the gateway's
behaviour as a function from the outbound request to its reply; JSON
decoding performed by Go's `encoding/json` is modelled by passing the
decode result explicitly.  Go `int` is modelled by `Int`, byte strings by
`String` (all inputs considered here are ASCII).
-/

namespace Solsms

/-- Constant block of solsms.go: the provider identifier. -/
def providerID : String := "solsms"

/-- Constant block of solsms.go: the channel name. -/
def channelName : String := "SMS"

/-- Constant block of solsms.go: the address label. -/
def addressName : String := "Mobile number"

/-- Constant block of solsms.go: `maxAddresslen = 11`. -/
def maxAddresslen : Int := 11

/-- Constant block of solsms.go: `maxOTPlen = 6`. -/
def maxOTPlen : Int := 6

/-- Constant block of solsms.go: the default API root URL. -/
def apiURL : String := "https://api.kaleyra.io/v1/"

/-- Constant block of solsms.go: the gateway's success marker. -/
def statusOK : String := "OK"

/-- Number of leading ASCII-digit characters of a character list
(`[0-9]` of the regex consumes exactly these). -/
def countLeadingDigits : List Char → Nat
  | [] => 0
  | c :: cs => if c.isDigit then countLeadingDigits cs + 1 else 0

/-- Whether a match of the regex `\+?([0-9]){8,15}` (the pattern compiled
into `reNum`) starts at the head of `cs`: either at least 8 digits follow
immediately (the optional `+` matches the empty string, and a run of at
least 8 digits contains a block of 8–15 digits as a head segment), or the
head is `+` and at least 8 digits follow it. -/
def matchHere (cs : List Char) : Bool :=
  (8 ≤ countLeadingDigits cs) ||
    (match cs with
     | c :: rest => c = '+' && (8 ≤ countLeadingDigits rest)
     | [] => false)

/-- Go's `Regexp.MatchString` is unanchored: it reports whether the string
CONTAINS a match anywhere, so we test every suffix position. -/
def matchAnywhere : List Char → Bool
  | [] => matchHere []
  | c :: cs => matchHere (c :: cs) || matchAnywhere cs

/-- `reNum.MatchString to` of solsms.go, specialised to the fixed pattern
`\+?([0-9]){8,15}`. -/
def reNumMatchString (toAddr : String) : Bool :=
  matchAnywhere toAddr.data

/-- The decoded configuration struct `cfg` of solsms.go.  Field types
follow the Go struct (`int` as `Int`). -/
structure Cfg where
  RootURL : String
  APIKey : String
  SID : String
  Sender : String
  Timeout : Int
  MaxIdleConns : Int
deriving DecidableEq

/-- `strings.TrimRight(s, "/")`: removes every trailing `/` character. -/
def trimRightSlash (s : String) : String :=
  ⟨(s.data.reverse.dropWhile (fun c => c = '/')).reverse⟩

/-- The HTTP client configured by `New`: `http.Client{Timeout: t * time.Second,
Transport: &http.Transport{MaxIdleConnsPerHost: 1, ResponseHeaderTimeout:
t * time.Second}}`, with durations recorded in seconds. -/
structure HttpClient where
  timeoutSeconds : Int
  maxIdleConnsPerHost : Int
  responseHeaderTimeoutSeconds : Int
deriving DecidableEq

/-- The adapter value `sms{cfg: c, h: h}` returned by `New`. -/
structure Sms where
  cfg : Cfg
  h : HttpClient
deriving DecidableEq

/-- Outcome of `New`.  `nilPanic` is the run-time nil-pointer dereference
that `c.APIKey` performs when JSON decoding succeeded but left the pointer
`c *cfg` nil. -/
inductive NewResult where
  | decodeError (e : String)
  | nilPanic
  | configError (e : String)
  | ok (s : Sms)
deriving DecidableEq

/-- `New(jsonCfg)` of solsms.go.  The `json.Unmarshal` step is passed in as
its result: `Except.error e` a decode failure, `Except.ok none` a decode
that succeeded leaving the pointer nil, `Except.ok (some c)` a decode into
struct `c`.  The rest is the translation of the function body. -/
def new (decoded : Except String (Option Cfg)) : NewResult :=
  match decoded with
  | Except.error e => NewResult.decodeError e
  | Except.ok none => NewResult.nilPanic
  | Except.ok (some c) =>
    if c.APIKey = "" ∨ c.Sender = "" ∨ c.SID = "" then
      NewResult.configError "invalid APIKey or Sender or SID"
    else
      let root := if c.RootURL = "" then apiURL else c.RootURL
      let endpoint := trimRightSlash root ++ "/" ++ c.SID ++ "/messages"
      let t : Int := if c.Timeout ≠ 0 then c.Timeout else 5
      NewResult.ok
        { cfg := { RootURL := endpoint, APIKey := c.APIKey, SID := c.SID,
                   Sender := c.Sender, Timeout := c.Timeout,
                   MaxIdleConns := c.MaxIdleConns },
          h := { timeoutSeconds := t, maxIdleConnsPerHost := 1,
                 responseHeaderTimeoutSeconds := t } }

/-- Modelled from the spec: Go's `encoding/json` semantics for the input
blob `"null"` decoded into `c *cfg` — `json.Unmarshal` succeeds and leaves
the pointer nil (the `encoding/json` library itself is not part of this
repository's sources). -/
def goUnmarshalNullCfg : Except String (Option Cfg) := Except.ok none

/-- `ValidateAddress` of solsms.go: fails with the error string
"invalid mobile number" when `reNum.MatchString` is false. -/
def Sms.ValidateAddress (_s : Sms) (toAddr : String) : Option String :=
  if !(reNumMatchString toAddr) then some "invalid mobile number" else none

/-- The anchored shape `^\+?[0-9]{8,15}$` named by the specification: an
optional leading `+` followed by 8–15 digits and nothing else.  Stated from
the spec's words, for comparison with the code's unanchored matcher. -/
def anchoredShape (s : String) : Bool :=
  match s.data with
  | [] => false
  | c :: rest =>
    let ds := if c = '+' then rest else c :: rest
    ds.all Char.isDigit && (8 ≤ ds.length) && (ds.length ≤ 15)

/-- Whether the character list contains a run of at least 8 consecutive
ASCII digits (starting at some position). -/
def hasDigitRun : List Char → Bool
  | [] => false
  | c :: cs => (8 ≤ countLeadingDigits (c :: cs)) || hasDigitRun cs

/-- Hexadecimal digit in upper case, as Go's URL escaping emits it. -/
def upperHexDigit (n : Nat) : Char :=
  if n < 10 then Char.ofNat (48 + n) else Char.ofNat (55 + n)

/-- One character of Go's `url.QueryEscape`: space becomes `+`;
alphanumerics and `-` `_` `.` `~` pass through; anything else becomes
`%XX` with upper-case hex.  Modelled at character level; every string the
adapter escapes in the claims is ASCII, where this coincides with Go's
byte-level escaping. -/
def escapeQueryChar (c : Char) : List Char :=
  if c = ' ' then ['+']
  else if c.isAlphanum || c = '-' || c = '_' || c = '.' || c = '~' then [c]
  else ['%', upperHexDigit (c.toNat / 16), upperHexDigit (c.toNat % 16)]

/-- Go's `url.QueryEscape`. -/
def queryEscape (s : String) : String :=
  ⟨s.data.flatMap escapeQueryChar⟩

/-- Lexicographic order on character lists by code point: for the ASCII
keys the adapter uses this is exactly Go's byte-wise string order, the
order `sort.Strings` applies to `url.Values.Encode`'s keys. -/
def lexLe : List Char → List Char → Bool
  | [], _ => true
  | _ :: _, [] => false
  | a :: as, b :: bs =>
    if a.toNat < b.toNat then true
    else if b.toNat < a.toNat then false
    else lexLe as bs

/-- Insertion into a key-sorted association list (ascending byte order,
as `sort.Strings` orders `url.Values.Encode`'s keys). -/
def insertPair (p : String × String) : List (String × String) → List (String × String)
  | [] => [p]
  | q :: qs => if lexLe p.1.data q.1.data then p :: q :: qs else q :: insertPair p qs

/-- Sort an association list by key, ascending. -/
def sortPairs : List (String × String) → List (String × String)
  | [] => []
  | p :: ps => insertPair p (sortPairs ps)

/-- `url.Values.Encode()`: keys sorted ascending, each pair emitted as
`escape(k)=escape(v)`, pairs joined with `&`. -/
def valuesEncode (ps : List (String × String)) : String :=
  String.intercalate "&" ((sortPairs ps).map (fun p => queryEscape p.1 ++ "=" ++ queryEscape p.2))

/-- Modelled from the spec: the host-supplied OTP record (`models.OTP`,
whose definition is not under the repository sources given here).  The
specification's OTPRequest names only the destination address; every other
host-owned field is abstracted into the opaque component `rest`. -/
structure OTP (ρ : Type) where
  To : String
  rest : ρ

/-- The outbound HTTP request `Push` constructs: method and URL of
`http.NewRequest("POST", s.cfg.RootURL, body)`, the two `req.Header.Set`
calls, and the form-encoded body `p.Encode()`. -/
structure Request where
  method : String
  url : String
  contentType : String
  apiKey : String
  body : String
deriving DecidableEq

/-- The request-construction prefix of `Push`: `p.Set("sender", ...)`,
`p.Set("to", otp.To)`, `p.Set("body", string(body))`, then the POST to
`s.cfg.RootURL` with the two headers. -/
def buildRequest {ρ : Type} (s : Sms) (otp : OTP ρ) (body : String) : Request :=
  { method := "POST",
    url := s.cfg.RootURL,
    contentType := "application/x-www-form-urlencoded",
    apiKey := s.cfg.APIKey,
    body := valuesEncode [("sender", s.cfg.Sender), ("to", otp.To), ("body", body)] }

/-- The struct `solSMSAPIResp` of solsms.go; the untyped `data` field is
never read by the adapter and is kept generic. -/
structure SolSMSAPIResp (δ : Type) where
  Status : String
  Message : String
  Data : δ

/-- The gateway's observable behaviour on one request: a transport-level
failure of `s.h.Do`, a failure reading the response body, or a body whose
`json.Unmarshal` into `solSMSAPIResp` is again passed in as its result. -/
inductive GatewayReply (δ : Type) where
  | transportError (e : String)
  | readError (e : String)
  | body (decoded : Except String (SolSMSAPIResp δ))

/-- Outcome of `Push`, tagged by the return site in the Go source. -/
inductive PushResult where
  | transportError (e : String)
  | readError (e : String)
  | decodeError (e : String)
  | rejected (msg : String)
  | ok
deriving DecidableEq

/-- `Push(otp, subject, body)` of solsms.go, with the gateway's behaviour
passed as a function of the outbound request.  `subject` is accepted and,
as in the source, never used. -/
def Sms.Push {ρ δ : Type} (s : Sms) (otp : OTP ρ) (subject : String)
    (body : String) (gw : Request → GatewayReply δ) : PushResult :=
  let req := buildRequest s otp body
  match gw req with
  | GatewayReply.transportError e => PushResult.transportError e
  | GatewayReply.readError e => PushResult.readError e
  | GatewayReply.body (Except.error e) => PushResult.decodeError e
  | GatewayReply.body (Except.ok r) =>
    if r.Status ≠ statusOK then PushResult.rejected r.Message else PushResult.ok

/-- `ID()` of solsms.go. -/
def Sms.ID (_s : Sms) : String := providerID

/-- `ChannelName()` of solsms.go. -/
def Sms.ChannelName (_s : Sms) : String := channelName

/-- `AddressName()` of solsms.go. -/
def Sms.AddressName (_s : Sms) : String := addressName

/-- `MaxAddressLen()` of solsms.go. -/
def Sms.MaxAddressLen (_s : Sms) : Int := maxAddresslen

/-- `MaxOTPLen()` of solsms.go. -/
def Sms.MaxOTPLen (_s : Sms) : Int := maxOTPlen

/-- `MaxBodyLen()` of solsms.go. -/
def Sms.MaxBodyLen (_s : Sms) : Int := 140

/-- Projection used by closed statements about `new`: the idle-connection
cap of the constructed adapter, when construction succeeded. -/
def idleCapOf : NewResult → Option Int
  | NewResult.ok s => some s.h.maxIdleConnsPerHost
  | _ => none

/-- Projection used by closed statements about `new`: the resolved endpoint
of the constructed adapter, when construction succeeded. -/
def endpointOf : NewResult → Option String
  | NewResult.ok s => some s.cfg.RootURL
  | _ => none

/-- Projection used by closed statements about `new`: the client timeout in
seconds of the constructed adapter, when construction succeeded. -/
def timeoutOf : NewResult → Option Int
  | NewResult.ok s => some s.h.timeoutSeconds
  | _ => none

/-- A concrete adapter instance, used by closed statements. -/
def demoSms : Sms :=
  { cfg := { RootURL := "https://api.kaleyra.io/v1/acct/messages",
             APIKey := "key1", SID := "acct", Sender := "SND",
             Timeout := 0, MaxIdleConns := 0 },
    h := { timeoutSeconds := 5, maxIdleConnsPerHost := 1,
           responseHeaderTimeoutSeconds := 5 } }


/-- A concrete OTP record, used by closed statements. -/
def demoOTP : OTP String := { To := "+12345678", rest := "host-owned" }

/-- A gateway behaviour used by closed statements: every request is answered
by a body that decodes to status "FAIL" with message "bad sender". -/
def gwFail : Request → GatewayReply Unit :=
  fun _ => GatewayReply.body (Except.ok { Status := "FAIL", Message := "bad sender", Data := () })

end Solsms

namespace Solsms

/-- If every character of a list is an ASCII digit, the whole list is one
leading digit run. -/
theorem countLeadingDigits_eq_length (cs : List Char) (h : cs.all Char.isDigit = true) :
    countLeadingDigits cs = cs.length := by
  induction cs with
  | nil => rfl
  | cons c cs ih =>
    simp only [List.all_cons, Bool.and_eq_true] at h
    simp [countLeadingDigits, h.1, ih h.2]

/-- A list with at least 8 leading digits contains a digit run. -/
theorem hasDigitRun_of_le (cs : List Char) (h : 8 ≤ countLeadingDigits cs) :
    hasDigitRun cs = true := by
  cases cs with
  | nil => simp [countLeadingDigits] at h
  | cons c cs =>
    simp only [hasDigitRun, Bool.or_eq_true, decide_eq_true_eq]
    exact Or.inl h

/-- The unanchored matcher for `\+?([0-9]){8,15}` finds a match exactly when
the input contains a run of at least 8 consecutive digits. -/
theorem matchAnywhere_eq_hasDigitRun (cs : List Char) :
    matchAnywhere cs = true ↔ hasDigitRun cs = true := by
  induction cs with
  | nil => decide
  | cons c cs ih =>
    simp only [matchAnywhere, matchHere, hasDigitRun, Bool.or_eq_true, decide_eq_true_eq,
      Bool.and_eq_true]
    constructor
    · rintro ((h | ⟨hc, h8⟩) | hma)
      · exact Or.inl h
      · exact Or.inr (hasDigitRun_of_le cs h8)
      · exact Or.inr (ih.mp hma)
    · rintro (h | hh)
      · exact Or.inl (Or.inl h)
      · exact Or.inr (ih.mpr hh)

/-- Every string of the anchored shape `^\+?[0-9]{8,15}$` is matched by the
code's unanchored search. -/
theorem reNumMatchString_of_anchored (s : String) (h : anchoredShape s = true) :
    reNumMatchString s = true := by
  rw [reNumMatchString]
  unfold anchoredShape at h
  rcases hsd : s.data with _ | ⟨c, rest⟩ <;> rw [hsd] at h
  · simp at h
  · by_cases hc : c = '+'
    · simp only [hc, if_pos, Bool.and_eq_true, decide_eq_true_eq] at h
      obtain ⟨⟨h1, h2⟩, _⟩ := h
      have h8 : 8 ≤ countLeadingDigits rest := by
        rw [countLeadingDigits_eq_length rest h1]; exact h2
      subst hc
      simp only [matchAnywhere, matchHere, Bool.or_eq_true, decide_eq_true_eq, Bool.and_eq_true]
      exact Or.inl (Or.inr ⟨by trivial, h8⟩)
    · simp only [hc, if_neg, if_false, Bool.and_eq_true, decide_eq_true_eq] at h
      obtain ⟨⟨h1, h2⟩, _⟩ := h
      have h8 : 8 ≤ countLeadingDigits (c :: rest) := by
        rw [countLeadingDigits_eq_length _ h1]; exact h2
      simp only [matchAnywhere, matchHere, Bool.or_eq_true, decide_eq_true_eq, Bool.and_eq_true]
      exact Or.inl (Or.inl h8)

/-- ValidateAddress succeeds exactly when the unanchored matcher accepts. -/
theorem validateAddress_eq_none_iff (a : Sms) (s : String) :
    a.ValidateAddress s = none ↔ reNumMatchString s = true := by
  rw [Sms.ValidateAddress]
  cases hm : reNumMatchString s <;> simp [hm]

/-- C1 (amended): ValidateAddress accepts every string of the anchored shape
`^\+?[0-9]{8,15}$`; but the code's regex is applied unanchored via
`MatchString`, so ValidateAddress in fact succeeds exactly when the input
CONTAINS a run of at least 8 consecutive ASCII digits, and fails with
InvalidAddressError only on strings without such a run. -/
theorem claim1_validate_contains (a : Sms) (s : String) :
    (anchoredShape s = true → a.ValidateAddress s = none) ∧
    (a.ValidateAddress s = none ↔ hasDigitRun s.data = true) := by
  constructor
  · intro h
    exact (validateAddress_eq_none_iff a s).mpr (reNumMatchString_of_anchored s h)
  · rw [validateAddress_eq_none_iff, reNumMatchString]
    exact matchAnywhere_eq_hasDigitRun s.data

/-- C1 (counterexample): a 16-digit string and a string containing letters
are both outside the anchored shape, yet ValidateAddress accepts them. -/
theorem claim1_counterexample :
    (anchoredShape "1234567890123456" = false ∧
      demoSms.ValidateAddress "1234567890123456" = none) ∧
    (anchoredShape "abc12345678" = false ∧
      demoSms.ValidateAddress "abc12345678" = none) := by
  decide

/-- C1 (witness): the anchored string "+12345678" is accepted, and has a
run of 8 consecutive digits. -/
theorem claim1_witness :
    demoSms.ValidateAddress "+12345678" = none ∧
    (demoSms.ValidateAddress "+12345678" = none ↔ hasDigitRun "+12345678".data = true) :=
  ⟨(claim1_validate_contains demoSms "+12345678").1 (by decide),
    (claim1_validate_contains demoSms "+12345678").2⟩

/-- C2: when the gateway's reply body decodes to a GatewayResponse `r`,
Push succeeds exactly when `r.Status` is the literal "OK", and otherwise
returns the Rejected error carrying exactly `r.Message`. -/
theorem claim2_status_classification (ρ δ : Type) (a : Sms) (otp : OTP ρ)
    (subject body : String) (gw : Request → GatewayReply δ) (r : SolSMSAPIResp δ)
    (hgw : gw (buildRequest a otp body) = GatewayReply.body (Except.ok r)) :
    (a.Push otp subject body gw = PushResult.ok ↔ r.Status = "OK") ∧
    (r.Status ≠ "OK" → a.Push otp subject body gw = PushResult.rejected r.Message) := by
  simp only [Sms.Push, hgw]
  by_cases hs : r.Status = "OK" <;> simp [hs, statusOK]

/-- C2 (witness): against a gateway answering
`{"status":"FAIL","message":"bad sender"}`, Push returns the Rejected
error "bad sender". -/
theorem claim2_witness :
    demoSms.Push demoOTP "login code" "your otp is 123456" gwFail =
      PushResult.rejected "bad sender" :=
  (claim2_status_classification String Unit demoSms demoOTP "login code"
      "your otp is 123456" gwFail { Status := "FAIL", Message := "bad sender", Data := () }
      rfl).2 (by decide)

/-- C3: whenever the decoded configuration has an empty APIKey, Sender or
SID, New fails with the config error, regardless of every other field. -/
theorem claim3_required_fields (c : Cfg)
    (h : c.APIKey = "" ∨ c.Sender = "" ∨ c.SID = "") :
    new (Except.ok (some c)) = NewResult.configError "invalid APIKey or Sender or SID" := by
  simp only [new]
  rw [if_pos h]

/-- C3 (witness): a configuration with an empty APIKey and every other
field populated is refused. -/
theorem claim3_witness :
    new (Except.ok (some ⟨"https://x", "", "sid", "snd", 3, 9⟩)) =
      NewResult.configError "invalid APIKey or Sender or SID" :=
  claim3_required_fields _ (Or.inl rfl)

/-- C4: every adapter New constructs has its endpoint equal to the root URL
(defaulted to the API base when unset) with trailing slashes removed,
followed by "/", the SID, and "/messages". -/
theorem claim4_endpoint (c : Cfg) (a : Sms)
    (h : new (Except.ok (some c)) = NewResult.ok a) :
    a.cfg.RootURL =
      trimRightSlash (if c.RootURL = "" then apiURL else c.RootURL)
        ++ "/" ++ c.SID ++ "/messages" := by
  simp only [new] at h
  split at h
  · exact NewResult.noConfusion h
  · injection h with h2
    subst h2
    rfl

/-- C4 (witness): RootURL "https://x/" with SID "acct" resolves to
"https://x/acct/messages" (no doubled slash), and an unset RootURL resolves
to the default base followed by "/acct/messages". -/
theorem claim4_witness :
    endpointOf (new (Except.ok (some ⟨"https://x/", "k", "acct", "snd", 0, 0⟩))) =
      some "https://x/acct/messages" ∧
    endpointOf (new (Except.ok (some ⟨"", "k", "acct", "snd", 0, 0⟩))) =
      some "https://api.kaleyra.io/v1/acct/messages" := by
  constructor
  · show some ((Sms.mk ⟨"https://x/acct/messages", "k", "acct", "snd", 0, 0⟩
        ⟨5, 1, 5⟩).cfg.RootURL) = _
    rw [claim4_endpoint ⟨"https://x/", "k", "acct", "snd", 0, 0⟩
      (Sms.mk ⟨"https://x/acct/messages", "k", "acct", "snd", 0, 0⟩ ⟨5, 1, 5⟩) rfl]
    decide
  · show some ((Sms.mk ⟨"https://api.kaleyra.io/v1/acct/messages", "k", "acct", "snd", 0, 0⟩
        ⟨5, 1, 5⟩).cfg.RootURL) = _
    rw [claim4_endpoint ⟨"", "k", "acct", "snd", 0, 0⟩
      (Sms.mk ⟨"https://api.kaleyra.io/v1/acct/messages", "k", "acct", "snd", 0, 0⟩ ⟨5, 1, 5⟩) rfl]
    decide

/-- C5 (counterexample): configurations asking for 7 or 9 idle connections
both produce a transport capped at 1 idle connection per host — the cap is
not derived from the MaxIdleConns field. -/
theorem claim5_counterexample :
    idleCapOf (new (Except.ok (some ⟨"", "k", "acct", "snd", 0, 7⟩))) = some 1 ∧
    idleCapOf (new (Except.ok (some ⟨"", "k", "acct", "snd", 0, 9⟩))) = some 1 ∧
    idleCapOf (new (Except.ok (some ⟨"", "k", "acct", "snd", 0, 7⟩))) ≠ some 7 := by
  decide

/-- C5 (amended): the idle-connection cap of every adapter New constructs
is the fixed constant 1, independent of the configuration's MaxIdleConns
field. -/
theorem claim5_idle_cap_fixed (c : Cfg) (a : Sms)
    (h : new (Except.ok (some c)) = NewResult.ok a) :
    a.h.maxIdleConnsPerHost = 1 := by
  simp only [new] at h
  split at h
  · exact NewResult.noConfusion h
  · injection h with h2
    subst h2
    rfl

/-- C5 (witness): a configuration requesting 7 idle connections still gets
the fixed cap 1. -/
theorem claim5_witness :
    (Sms.mk ⟨"https://api.kaleyra.io/v1/acct/messages", "k", "acct", "snd", 0, 7⟩
      ⟨5, 1, 5⟩).h.maxIdleConnsPerHost = 1 :=
  claim5_idle_cap_fixed ⟨"", "k", "acct", "snd", 0, 7⟩ _ rfl

/-- C6: the client timeout of every adapter New constructs equals the
configured Timeout in seconds when that field is non-zero, and 5 seconds
when it is zero (the decoded value of an unset field). -/
theorem claim6_timeout (c : Cfg) (a : Sms)
    (h : new (Except.ok (some c)) = NewResult.ok a) :
    (c.Timeout ≠ 0 → a.h.timeoutSeconds = c.Timeout) ∧
    (c.Timeout = 0 → a.h.timeoutSeconds = 5) := by
  simp only [new] at h
  split at h
  · exact NewResult.noConfusion h
  · injection h with h2
    subst h2
    constructor <;> intro ht <;> simp [ht]

/-- C6 (witness): Timeout 7 yields a 7-second client timeout; Timeout 0
yields the 5-second default. -/
theorem claim6_witness :
    (Sms.mk ⟨"https://api.kaleyra.io/v1/acct/messages", "k", "acct", "snd", 7, 0⟩
      ⟨7, 1, 7⟩).h.timeoutSeconds = 7 ∧
    (Sms.mk ⟨"https://api.kaleyra.io/v1/acct/messages", "k", "acct", "snd", 0, 0⟩
      ⟨5, 1, 5⟩).h.timeoutSeconds = 5 :=
  ⟨(claim6_timeout ⟨"", "k", "acct", "snd", 7, 0⟩ _ rfl).1 (by decide),
   (claim6_timeout ⟨"", "k", "acct", "snd", 0, 0⟩ _ rfl).2 rfl⟩

/-- C7: the outbound request of every Push is a POST to the resolved
endpoint carrying the form-urlencoded content type, the api-key header set
to the configured API key, and as body the form encoding of exactly the
three fields sender, to and body (keys in sorted order, values escaped). -/
theorem claim7_request (ρ : Type) (a : Sms) (otp : OTP ρ) (body : String) :
    buildRequest a otp body =
      { method := "POST",
        url := a.cfg.RootURL,
        contentType := "application/x-www-form-urlencoded",
        apiKey := a.cfg.APIKey,
        body := String.intercalate "&"
          ["body=" ++ queryEscape body, "sender=" ++ queryEscape a.cfg.Sender,
           "to=" ++ queryEscape otp.To] } := rfl

/-- C7 (witness): the concrete request for body "hi there" to +12345678. -/
theorem claim7_witness :
    buildRequest demoSms demoOTP "hi there" =
      { method := "POST",
        url := "https://api.kaleyra.io/v1/acct/messages",
        contentType := "application/x-www-form-urlencoded",
        apiKey := "key1",
        body := "body=hi+there&sender=SND&to=%2B12345678" } :=
  (claim7_request String demoSms demoOTP "hi there").trans (by decide)

/-- C8: the capability accessors are pure constants across calls and
across adapter instances: address max 11, OTP max 6, body max 140. -/
theorem claim8_capability_constants (a b : Sms) :
    a.MaxAddressLen = 11 ∧ a.MaxOTPLen = 6 ∧ a.MaxBodyLen = 140 ∧
    a.MaxAddressLen = b.MaxAddressLen ∧ a.MaxOTPLen = b.MaxOTPLen ∧
    a.MaxBodyLen = b.MaxBodyLen :=
  ⟨rfl, rfl, rfl, rfl, rfl, rfl⟩

/-- C9: decoding the blob "null" succeeds leaving the configuration
pointer nil, and New then dereferences that nil pointer (a run-time panic)
instead of returning a config error. -/
theorem claim9_nil_panic :
    goUnmarshalNullCfg = Except.ok none ∧
    new goUnmarshalNullCfg = NewResult.nilPanic :=
  ⟨rfl, rfl⟩

/-- C10: Push's outbound request and outcome depend on the OTP record only
through its destination To, and not at all on the subject parameter: two
calls agreeing on the adapter, To, body and gateway behaviour build the
same request and return the same result. -/
theorem claim10_subject_independent (ρ₁ ρ₂ δ : Type) (a : Sms)
    (o₁ : OTP ρ₁) (o₂ : OTP ρ₂) (sub₁ sub₂ body : String)
    (gw : Request → GatewayReply δ) (h : o₁.To = o₂.To) :
    buildRequest a o₁ body = buildRequest a o₂ body ∧
    a.Push o₁ sub₁ body gw = a.Push o₂ sub₂ body gw := by
  have hreq : buildRequest a o₁ body = buildRequest a o₂ body := by
    simp only [buildRequest, h]
  exact ⟨hreq, by simp only [Sms.Push, hreq]⟩

/-- C10 (witness): two OTP records of different shapes sharing the same To,
with different subjects, yield the same request and the same outcome. -/
theorem claim10_witness :
    buildRequest demoSms ({ To := "+12345678", rest := 0 } : OTP Nat) "hi" =
      buildRequest demoSms ({ To := "+12345678", rest := true } : OTP Bool) "hi" ∧
    Sms.Push demoSms ({ To := "+12345678", rest := 0 } : OTP Nat) "subject one" "hi" gwFail =
      Sms.Push demoSms ({ To := "+12345678", rest := true } : OTP Bool) "subject two" "hi" gwFail :=
  claim10_subject_independent Nat Bool Unit demoSms
    { To := "+12345678", rest := 0 } { To := "+12345678", rest := true }
    "subject one" "subject two" "hi" gwFail rfl

end Solsms
